import Mathlib

/-!
Verification of the contribution-ledger logic of `src/app.py`
(streamlit-wedding-payments).

The program keeps one spreadsheet row per service, with columns
`Servicio` (name), `Objetivo` (target) and `Aportado` (contributed).
The embedding below models:

* the external sheet as `AppState.store : List Service` (one row per
  service, in sheet order), and the process-wide `st.cache_resource`
  cache of `get_google_sheet_data` as `AppState.cache : Option (List
  Service)` (`none` = cache empty/cleared/expired);
* `get_google_sheet_data` (app.py lines 15-28): returns the cached
  snapshot when present, otherwise reads the sheet and caches the
  result;
* `update_google_sheet` (app.py lines 37-58): clears the cache, fetches
  the latest data, locates the first row whose `Servicio` equals the
  requested name (pandas `df[df['Servicio'] == name].index`, first
  index), and writes `current + amount` into that row's `Aportado`
  cell; if no row matches it reports an error and writes nothing;
* the per-service contribution handler of `app()` (lines 96-127):
  the funded gate (line 96), the `amount > 0` check (line 117), the
  capacity check `aportado + aporte_input <= objetivo` (line 119)
  against the displayed snapshot, the commit via `update_google_sheet`
  (line 120), and the warning reporting `max_aporte = objetivo -
  aportado` (lines 103, 125);
* the display/listing path (lines 72, 78): fetch (via the cache) and
  sort by `Servicio` ascending (pandas stable `sort_values`);
* the progress computation (line 85).

Monetary amounts are Python ints in the app (the number-input widget
produces ints); they are modelled as `Int`.  The progress percentage
(line 85) divides, so it is modelled over `ℚ`.
-/

/-- One row of the sheet: columns `Servicio`, `Objetivo`, `Aportado`. -/
structure Service where
  servicio : String
  objetivo : Int
  aportado : Int
deriving Repr, DecidableEq

/-- The sheet (authoritative store) together with the process-wide
`st.cache_resource` cache of `get_google_sheet_data`. -/
structure AppState where
  store : List Service
  cache : Option (List Service)
deriving Repr, DecidableEq

/-- app.py lines 15-28: `get_google_sheet_data` under
`@st.cache_resource(ttl=3600)`.  On a cache hit the cached snapshot is
returned and the sheet is not read; on a miss the sheet is read and the
snapshot cached. -/
def get_google_sheet_data (st : AppState) : List Service × AppState :=
  match st.cache with
  | some df => (df, st)
  | none => (st.store, { st with cache := some st.store })

/-- Pandas `df[df['Servicio'] == service_name].index` followed by
`.index[0]` and `.loc[idx, ...]` (app.py lines 45-52): the 0-based index
of the first row whose `Servicio` equals `service_name`, together with
that row. -/
def find_row (service_name : String) : List Service → Option (Nat × Service)
  | [] => none
  | r :: rs =>
      if r.servicio = service_name then some (0, r)
      else (find_row service_name rs).map (fun p => (p.1 + 1, p.2))

/-- `worksheet.update_cell(i + 2, 3, v)` (app.py line 56): overwrite the
`Aportado` field of the row at 0-based index `i`. -/
def set_aportado : List Service → Nat → Int → List Service
  | [], _, _ => []
  | r :: rs, 0, v => { r with aportado := v } :: rs
  | r :: rs, Nat.succ n, v => r :: set_aportado rs n v

/-- Outcome of `update_google_sheet`: either the new amount was written
to the sheet, or the service row was not found (st.error, line 58). -/
inductive UpdateResult where
  | committed (new_amount : Int)
  | serviceNotFound
deriving Repr, DecidableEq

/-- app.py lines 37-58: `update_google_sheet`.  Clears the resource
cache (line 41), re-fetches the data (line 42, re-populating the cache
with the pre-write snapshot), locates the first row matching
`service_name` (line 45), and writes `current_amount + amount` into its
`Aportado` cell (lines 52-56); if no row matches, reports an error and
writes nothing (line 58). -/
def update_google_sheet (st : AppState) (service_name : String) (amount : Int) :
    AppState × UpdateResult :=
  let cleared : AppState := { st with cache := none }
  let fetched := get_google_sheet_data cleared
  match find_row service_name fetched.1 with
  | some (i, row) =>
      ({ fetched.2 with store := set_aportado fetched.2.store i (row.aportado + amount) },
        UpdateResult.committed (row.aportado + amount))
  | none => (fetched.2, UpdateResult.serviceNotFound)

/-- Outcome of one per-service interaction of `app()`. -/
inductive ContributeResult where
  /-- st.success at line 121: the contribution was committed. -/
  | success (amount : Int)
  /-- st.warning at line 125, carrying `max_aporte` (line 103). -/
  | capacityExceeded (max_aporte : Int)
  /-- st.warning at line 127: amount not greater than 0. -/
  | invalidAmount
  /-- st.error inside `update_google_sheet` (line 58). -/
  | serviceNotFoundError
  /-- Line 96-97: the displayed service already reached its target, so
  no input widget or button is rendered at all. -/
  | fundedNoInput
  /-- The service does not appear in the displayed snapshot, so no
  input widget or button exists for it. -/
  | serviceNotListed
deriving Repr, DecidableEq

/-- app.py lines 116-127: the button handler for one displayed service
row.  `row` carries the `servicio`, `objetivo` and `aportado` values
read from the displayed snapshot (lines 81-83); `max_aporte` is
`objetivo - aportado` (line 103). -/
def contribute (st : AppState) (row : Service) (aporte_input : Int) :
    AppState × ContributeResult :=
  if aporte_input > 0 then
    if row.aportado + aporte_input ≤ row.objetivo then
      match update_google_sheet st row.servicio aporte_input with
      | (st2, UpdateResult.committed _) => (st2, ContributeResult.success aporte_input)
      | (st2, UpdateResult.serviceNotFound) => (st2, ContributeResult.serviceNotFoundError)
    else (st, ContributeResult.capacityExceeded (row.objetivo - row.aportado))
  else (st, ContributeResult.invalidAmount)

/-- Insertion step of the stable sort modelling pandas
`sort_values(by='Servicio')` (app.py line 78). -/
def insert_sorted (r : Service) : List Service → List Service
  | [] => [r]
  | x :: xs => if r.servicio ≤ x.servicio then r :: x :: xs else x :: insert_sorted r xs

/-- Pandas `df.sort_values(by='Servicio')` (app.py line 78): stable sort
of the rows by `Servicio` ascending. -/
def sort_values_servicio : List Service → List Service
  | [] => []
  | x :: xs => insert_sorted x (sort_values_servicio xs)

/-- The listing path of `app()` (lines 72 and 78): fetch the snapshot
(through the resource cache) and sort it by `Servicio` for display.
This is the spec's `listServices()`. -/
def listServices (st : AppState) : List Service × AppState :=
  let fetched := get_google_sheet_data st
  (sort_values_servicio fetched.1, fetched.2)

/-- app.py line 85:
`min(100, (aportado / objetivo) * 100) if objetivo > 0 else 0`. -/
def progreso_porcentaje (aportado objetivo : Int) : ℚ :=
  if objetivo > 0 then min 100 (((aportado : ℚ) / (objetivo : ℚ)) * 100) else 0

/-- One full user interaction with one service, as `app()` executes it:
fetch the snapshot through the cache (line 72), sort it for display
(line 78), locate the displayed row for `service_name`; if the row is
absent no widget exists; if `aportado >= objetivo` (line 96) only a
success banner is shown and no contribution is possible; otherwise the
button handler `contribute` runs on the displayed row. -/
def app_contribute (st : AppState) (service_name : String) (aporte_input : Int) :
    AppState × ContributeResult :=
  let fetched := get_google_sheet_data st
  match find_row service_name (sort_values_servicio fetched.1) with
  | none => (fetched.2, ContributeResult.serviceNotListed)
  | some (_, row) =>
      if row.aportado ≥ row.objetivo then (fetched.2, ContributeResult.fundedNoInput)
      else contribute fetched.2 row aporte_input

/-- A sequence of user interactions, each one executed by a fresh run of
`app()` (after a successful contribution `st.rerun()` starts the next
run; failed attempts leave the state as it was). -/
def run_app (st : AppState) : List (String × Int) → AppState
  | [] => st
  | (service_name, amount) :: rest => run_app (app_contribute st service_name amount).1 rest

/-- Row at 0-based index `j` of the sheet, if any. -/
def nth_row : List Service → Nat → Option Service
  | [], _ => none
  | r :: _, 0 => some r
  | _ :: rs, Nat.succ n => nth_row rs n

/-- The `Aportado` value stored at row index `j` (0 for a missing row). -/
def aportado_at (l : List Service) (j : Nat) : Int :=
  ((nth_row l j).map Service.aportado).getD 0

/-! ## Helper lemmas about the embedded operations -/

/-- Reading through the cache never changes the sheet itself. -/
theorem get_google_sheet_data_store (st : AppState) :
    (get_google_sheet_data st).2.store = st.store := by
  obtain ⟨store, cache⟩ := st
  cases cache <;> rfl

/-- `update_google_sheet` always acts on the freshly read sheet: its
cache-clear followed by the re-fetch makes the looked-up data the store
itself, and the re-fetch leaves the pre-write snapshot in the cache. -/
theorem update_google_sheet_eq (st : AppState) (service_name : String) (amount : Int) :
    update_google_sheet st service_name amount =
      match find_row service_name st.store with
      | some (i, row) =>
          (AppState.mk (set_aportado st.store i (row.aportado + amount)) (some st.store),
            UpdateResult.committed (row.aportado + amount))
      | none => (AppState.mk st.store (some st.store), UpdateResult.serviceNotFound) := rfl

theorem update_google_sheet_found (st : AppState) (service_name : String) (amount : Int)
    (i : Nat) (row : Service) (hf : find_row service_name st.store = some (i, row)) :
    update_google_sheet st service_name amount =
      (AppState.mk (set_aportado st.store i (row.aportado + amount)) (some st.store),
        UpdateResult.committed (row.aportado + amount)) := by
  rw [update_google_sheet_eq, hf]

theorem update_google_sheet_not_found (st : AppState) (service_name : String) (amount : Int)
    (hf : find_row service_name st.store = none) :
    update_google_sheet st service_name amount =
      (AppState.mk st.store (some st.store), UpdateResult.serviceNotFound) := by
  rw [update_google_sheet_eq, hf]

/-- If `find_row` locates index `i`, then row `i` is the located row. -/
theorem find_row_some_nth (service_name : String) :
    ∀ (l : List Service) (i : Nat) (row : Service),
      find_row service_name l = some (i, row) → nth_row l i = some row := by
  intro l
  induction l with
  | nil => intro i row h; simp [find_row] at h
  | cons r rs ih =>
      intro i row h
      rw [find_row] at h
      by_cases hr : r.servicio = service_name
      · rw [if_pos hr] at h
        injection h with h
        injection h with h1 h2
        subst h1; subst h2
        rfl
      · rw [if_neg hr] at h
        cases ho : find_row service_name rs with
        | none => rw [ho] at h; exact absurd h (by simp)
        | some p =>
            obtain ⟨j, q⟩ := p
            rw [ho] at h
            injection h with h
            injection h with h1 h2
            subst h1; subst h2
            exact ih j q ho

/-- If no row carries the requested name, `find_row` reports none. -/
theorem find_row_eq_none (service_name : String) :
    ∀ l : List Service, (∀ r ∈ l, r.servicio ≠ service_name) →
      find_row service_name l = none := by
  intro l
  induction l with
  | nil => intro _; rfl
  | cons r rs ih =>
      intro h
      rw [find_row, if_neg (h r (List.mem_cons_self r rs)),
        ih (fun x hx => h x (List.mem_cons_of_mem r hx))]
      rfl

/-- Overwriting the `Aportado` cell of row `i` changes row `i` exactly
there and leaves every other row untouched. -/
theorem nth_row_set_aportado :
    ∀ (l : List Service) (i j : Nat) (v : Int),
      nth_row (set_aportado l i v) j =
        if i = j then (nth_row l j).map (fun r => { r with aportado := v })
        else nth_row l j := by
  intro l
  induction l with
  | nil => intro i j v; cases i <;> cases j <;> simp [set_aportado, nth_row]
  | cons r rs ih =>
      intro i j v
      cases i with
      | zero =>
          cases j with
          | zero => simp [set_aportado, nth_row]
          | succ n => simp [set_aportado, nth_row]
      | succ m =>
          cases j with
          | zero => simp [set_aportado, nth_row]
          | succ n =>
              have hstep : nth_row (r :: set_aportado rs m v) (Nat.succ n) =
                  nth_row (set_aportado rs m v) n := rfl
              rw [show set_aportado (r :: rs) (Nat.succ m) v =
                  r :: set_aportado rs m v from rfl, hstep, ih]
              by_cases hmn : m = n
              · rw [if_pos hmn, if_pos (by omega)]
                subst hmn
                rfl
              · rw [if_neg hmn, if_neg (by omega)]
                rfl

/-- One button-handler interaction never lowers any stored amount:
failed attempts write nothing, and a committed contribution adds a
positive amount to the freshly read value of the targeted row. -/
theorem contribute_store_mono (st : AppState) (row : Service) (a : Int) (j : Nat) :
    aportado_at st.store j ≤ aportado_at (contribute st row a).1.store j := by
  unfold contribute
  by_cases h1 : a > 0
  · rw [if_pos h1]
    by_cases h2 : row.aportado + a ≤ row.objetivo
    · rw [if_pos h2]
      cases hf : find_row row.servicio st.store with
      | none =>
          rw [update_google_sheet_not_found st _ a hf]
      | some p =>
          obtain ⟨i, r0⟩ := p
          rw [update_google_sheet_found st _ a i r0 hf]
          show aportado_at st.store j ≤
            aportado_at (set_aportado st.store i (r0.aportado + a)) j
          rw [aportado_at, aportado_at, nth_row_set_aportado]
          by_cases hij : i = j
          · rw [if_pos hij]
            subst hij
            rw [find_row_some_nth row.servicio st.store i r0 hf]
            show r0.aportado ≤ r0.aportado + a
            omega
          · rw [if_neg hij]
    · rw [if_neg h2]
  · rw [if_neg h1]

/-- One full user interaction (fetch, funded gate, handler) never
lowers any stored amount. -/
theorem app_contribute_store_mono (st : AppState) (service_name : String) (a : Int) (j : Nat) :
    aportado_at st.store j ≤ aportado_at (app_contribute st service_name a).1.store j := by
  have heq : app_contribute st service_name a =
      match find_row service_name (sort_values_servicio (get_google_sheet_data st).1) with
      | none => ((get_google_sheet_data st).2, ContributeResult.serviceNotListed)
      | some (_, row) =>
          if row.aportado ≥ row.objetivo then
            ((get_google_sheet_data st).2, ContributeResult.fundedNoInput)
          else contribute (get_google_sheet_data st).2 row a := rfl
  rw [heq]
  cases hf : find_row service_name (sort_values_servicio (get_google_sheet_data st).1) with
  | none =>
      show aportado_at st.store j ≤ aportado_at (get_google_sheet_data st).2.store j
      rw [get_google_sheet_data_store]
  | some p =>
      obtain ⟨i, row⟩ := p
      by_cases hge : row.aportado ≥ row.objetivo
      · show aportado_at st.store j ≤
          aportado_at (if row.aportado ≥ row.objetivo then
            ((get_google_sheet_data st).2, ContributeResult.fundedNoInput)
          else contribute (get_google_sheet_data st).2 row a).1.store j
        rw [if_pos hge, get_google_sheet_data_store]
      · show aportado_at st.store j ≤
          aportado_at (if row.aportado ≥ row.objetivo then
            ((get_google_sheet_data st).2, ContributeResult.fundedNoInput)
          else contribute (get_google_sheet_data st).2 row a).1.store j
        rw [if_neg hge]
        have h := contribute_store_mono (get_google_sheet_data st).2 row a j
        rw [get_google_sheet_data_store] at h
        exact h

/-! ## Claim theorems -/

/-- C4: for every service row and every amount a > 0 with
contributed + a > target, the contribution handler fails with the
capacity warning, changes no state (commits nothing to the sheet), and
reports exactly the remaining capacity target - contributed
(`max_aporte`, app.py lines 103 and 125). -/
theorem contribute_over_capacity_rejected (st : AppState) (row : Service) (a : Int)
    (h1 : a > 0) (h2 : row.aportado + a > row.objetivo) :
    contribute st row a =
      (st, ContributeResult.capacityExceeded (row.objetivo - row.aportado)) := by
  unfold contribute
  rw [if_pos h1, if_neg (by omega : ¬ row.aportado + a ≤ row.objetivo)]

/-- Witness for C4: the spec's boundary scenario, Catering at 480 of
500, contributing remaining capacity + 1 = 21. -/
theorem contribute_over_capacity_rejected_witness :
    contribute (AppState.mk [Service.mk "Catering" 500 480] none)
        (Service.mk "Catering" 500 480) 21 =
      (AppState.mk [Service.mk "Catering" 500 480] none,
        ContributeResult.capacityExceeded 20) := by
  have h := contribute_over_capacity_rejected
    (AppState.mk [Service.mk "Catering" 500 480] none)
    (Service.mk "Catering" 500 480) 21 (by decide) (by decide)
  exact h

/-- C5: for a service row whose remaining capacity
target - contributed is positive and which agrees with the freshly
fetched sheet (`find_row` locates exactly this row at index i),
contributing exactly the remaining capacity succeeds and the committed
amount stored at row i equals the target, so the service becomes
funded. -/
theorem contribute_remaining_capacity_fills_target (st : AppState) (row : Service) (i : Nat)
    (hf : find_row row.servicio st.store = some (i, row))
    (hrem : row.objetivo - row.aportado > 0) :
    (contribute st row (row.objetivo - row.aportado)).2 =
        ContributeResult.success (row.objetivo - row.aportado) ∧
    aportado_at (contribute st row (row.objetivo - row.aportado)).1.store i =
        row.objetivo := by
  unfold contribute
  rw [if_pos hrem,
    if_pos (by omega : row.aportado + (row.objetivo - row.aportado) ≤ row.objetivo),
    update_google_sheet_found st row.servicio (row.objetivo - row.aportado) i row hf]
  constructor
  · rfl
  · rw [aportado_at, nth_row_set_aportado, if_pos rfl,
      find_row_some_nth row.servicio st.store i row hf]
    show row.aportado + (row.objetivo - row.aportado) = row.objetivo
    omega

/-- Witness for C5: Catering at 480 of 500, contributing the remaining
20 fills the service to exactly 500. -/
theorem contribute_remaining_capacity_fills_target_witness :
    (contribute (AppState.mk [Service.mk "Catering" 500 480] none)
        (Service.mk "Catering" 500 480) 20).2 = ContributeResult.success 20 ∧
    aportado_at (contribute (AppState.mk [Service.mk "Catering" 500 480] none)
        (Service.mk "Catering" 500 480) 20).1.store 0 = 500 := by
  have h := contribute_remaining_capacity_fills_target
    (AppState.mk [Service.mk "Catering" 500 480] none)
    (Service.mk "Catering" 500 480) 0 (by decide) (by decide)
  exact h

/-- C6: for every service row and every amount a <= 0 (0 and negative
values alike), the contribution handler fails with the invalid-amount
warning and returns the state entirely unchanged: no cache clear, no
fetch, no sheet write (app.py lines 117 and 127). -/
theorem contribute_nonpositive_rejected (st : AppState) (row : Service) (a : Int)
    (h : a ≤ 0) :
    contribute st row a = (st, ContributeResult.invalidAmount) := by
  unfold contribute
  rw [if_neg (by omega : ¬ a > 0)]

/-- Witness for C6: the spec's rejection scenarios, amounts 0 and -5. -/
theorem contribute_nonpositive_rejected_witness :
    contribute (AppState.mk [Service.mk "Catering" 500 480] none)
        (Service.mk "Catering" 500 480) 0 =
      (AppState.mk [Service.mk "Catering" 500 480] none,
        ContributeResult.invalidAmount) ∧
    contribute (AppState.mk [Service.mk "Catering" 500 480] none)
        (Service.mk "Catering" 500 480) (-5) =
      (AppState.mk [Service.mk "Catering" 500 480] none,
        ContributeResult.invalidAmount) :=
  ⟨contribute_nonpositive_rejected _ _ 0 (by decide),
   contribute_nonpositive_rejected _ _ (-5) (by decide)⟩

/-- C7: for every amount a > 0 and a service name carried by no row of
the freshly fetched sheet, the commit step fails with the
service-not-found error and writes nothing: the sheet is returned
unchanged (app.py lines 45-58). -/
theorem update_unknown_service_rejected (st : AppState) (service_name : String) (a : Int)
    ( _h1 : a > 0) (h2 : ∀ r ∈ st.store, r.servicio ≠ service_name) :
    update_google_sheet st service_name a =
      (AppState.mk st.store (some st.store), UpdateResult.serviceNotFound) :=
  update_google_sheet_not_found st service_name a
    (find_row_eq_none service_name st.store h2)

/-- Witness for C7: the spec's unknown-target scenario,
contribute("no-such-service", 10). -/
theorem update_unknown_service_rejected_witness :
    update_google_sheet (AppState.mk [Service.mk "Catering" 500 480] none)
        "no-such-service" 10 =
      (AppState.mk [Service.mk "Catering" 500 480]
          (some [Service.mk "Catering" 500 480]),
        UpdateResult.serviceNotFound) :=
  update_unknown_service_rejected _ "no-such-service" 10 (by decide) (by decide)

/-- C9: across every sequence of user interactions (and in particular
across every sequence of successful contribute calls), no stored
`Aportado` value ever decreases: every committed write stores the
freshly read current amount plus a positive contribution, and every
failed attempt writes nothing. -/
theorem contributed_never_decreases (st : AppState) (reqs : List (String × Int)) (j : Nat) :
    aportado_at st.store j ≤ aportado_at (run_app st reqs).store j := by
  induction reqs generalizing st with
  | nil => exact le_refl _
  | cons req rest ih =>
      obtain ⟨n, a⟩ := req
      exact le_trans (app_contribute_store_mono st n a j) (ih (app_contribute st n a).1)

/-- C10: the progress computation of app.py line 85 is total and
capped: whenever the target is 0 (and indeed whenever it is not
positive) the guard returns 0 without dividing, and in every case the
resulting percentage is at most 100, even when contributed exceeds the
target. -/
theorem progreso_porcentaje_total_and_capped (aportado objetivo : Int) :
    progreso_porcentaje aportado objetivo ≤ 100 ∧
    (objetivo = 0 → progreso_porcentaje aportado objetivo = 0) := by
  unfold progreso_porcentaje
  by_cases h : objetivo > 0
  · rw [if_pos h]
    exact ⟨min_le_left _ _, fun h0 => absurd h (by omega)⟩
  · rw [if_neg h]
    exact ⟨by norm_num, fun _ => rfl⟩

/-- Witness for C10: a service overfunded at 150 of 100 displays at
most 100 percent, and a zero-target service displays 0. -/
theorem progreso_porcentaje_total_and_capped_witness :
    progreso_porcentaje 150 100 ≤ 100 ∧ progreso_porcentaje 7 0 = 0 :=
  ⟨(progreso_porcentaje_total_and_capped 150 100).1,
   (progreso_porcentaje_total_and_capped 7 0).2 rfl⟩

/-- C1 counterexample: the capacity decision is NOT made against a
freshly fetched snapshot.  Reachable run: from a clean start with
Catering at 0 of 10, a user contributes 5 (committed; the sheet now
holds 5, but the cache re-populated during the write still holds the
pre-write snapshot showing 0).  The rerun displays 0, so contributing
10 passes the capacity check 0 + 10 <= 10 — even though the freshly
fetched contributed value 5 plus 10 exceeds the target — and commits
5 + 10 = 15. -/
theorem capacity_decision_on_stale_view :
    (app_contribute (AppState.mk [Service.mk "Catering" 10 0] none) "Catering" 5).1.store =
        [Service.mk "Catering" 10 5] ∧
    aportado_at
        (app_contribute (AppState.mk [Service.mk "Catering" 10 0] none) "Catering" 5).1.store 0
        + 10 > 10 ∧
    (app_contribute
        (app_contribute (AppState.mk [Service.mk "Catering" 10 0] none) "Catering" 5).1
        "Catering" 10).2 = ContributeResult.success 10 ∧
    (app_contribute
        (app_contribute (AppState.mk [Service.mk "Catering" 10 0] none) "Catering" 5).1
        "Catering" 10).1.store = [Service.mk "Catering" 10 15] := by
  decide

/-- C1 (amended): the full snapshot is re-fetched from the store inside
the commit step, after the capacity validation: when the handler
accepts an amount a > 0 against the caller's displayed row (capacity
check on the displayed `aportado`), the committed value is the freshly
fetched stored amount plus a — computed from the sheet itself,
independent of whatever snapshot was cached — and the pre-write sheet
snapshot is left in the cache. -/
theorem commit_refetches_after_validation (st : AppState) (row : Service) (a : Int)
    (i : Nat) (fresh : Service)
    (h1 : a > 0) (h2 : row.aportado + a ≤ row.objetivo)
    (hf : find_row row.servicio st.store = some (i, fresh)) :
    contribute st row a =
      (AppState.mk (set_aportado st.store i (fresh.aportado + a)) (some st.store),
        ContributeResult.success a) := by
  unfold contribute
  rw [if_pos h1, if_pos h2, update_google_sheet_found st row.servicio a i fresh hf]

/-- Witness for the amended C1: the displayed (cached) row shows 0 of
10 while the sheet holds 5; contributing 10 is validated against the
displayed 0 but commits the freshly fetched 5 + 10 = 15. -/
theorem commit_refetches_after_validation_witness :
    contribute
        (AppState.mk [Service.mk "Catering" 10 5] (some [Service.mk "Catering" 10 0]))
        (Service.mk "Catering" 10 0) 10 =
      (AppState.mk [Service.mk "Catering" 10 15] (some [Service.mk "Catering" 10 5]),
        ContributeResult.success 10) := by
  have h := commit_refetches_after_validation
    (AppState.mk [Service.mk "Catering" 10 5] (some [Service.mk "Catering" 10 0]))
    (Service.mk "Catering" 10 0) 10 0 (Service.mk "Catering" 10 5)
    (by decide) (by decide) (by decide)
  exact h

/-- C2: the invariant contributed <= target is violated by a purely
sequential, single-user run.  From a clean start with Catering at 0 of
10: contributing 5 succeeds and commits 5, but leaves the pre-write
snapshot (showing 0) in the resource cache; the rerun therefore still
displays 0 of 10 (so the input widget accepts up to 10); contributing
10 then passes the capacity check against the stale 0 and commits the
freshly fetched 5 + 10 = 15 > 10. -/
theorem sequential_invariant_violation :
    (app_contribute (AppState.mk [Service.mk "Catering" 10 0] none) "Catering" 5).2 =
        ContributeResult.success 5 ∧
    (get_google_sheet_data
        (app_contribute (AppState.mk [Service.mk "Catering" 10 0] none) "Catering" 5).1).1 =
        [Service.mk "Catering" 10 0] ∧
    (app_contribute
        (app_contribute (AppState.mk [Service.mk "Catering" 10 0] none) "Catering" 5).1
        "Catering" 10).2 = ContributeResult.success 10 ∧
    aportado_at (app_contribute
        (app_contribute (AppState.mk [Service.mk "Catering" 10 0] none) "Catering" 5).1
        "Catering" 10).1.store 0 = 15 ∧
    ¬ aportado_at (app_contribute
        (app_contribute (AppState.mk [Service.mk "Catering" 10 0] none) "Catering" 5).1
        "Catering" 10).1.store 0 ≤ 10 := by
  decide

/-- C3 counterexample: a listing call reuses the cached snapshot across
a write.  Reachable state: after the first contribution of 5 from a
clean start, the sheet holds Catering at 5 of 10, but `listServices`
returns the cached pre-write snapshot showing 0 of 10 — it does not
reflect the write committed strictly before the call. -/
theorem listServices_returns_stale_snapshot :
    (app_contribute (AppState.mk [Service.mk "Catering" 10 0] none) "Catering" 5).1.store =
        [Service.mk "Catering" 10 5] ∧
    (listServices
        (app_contribute (AppState.mk [Service.mk "Catering" 10 0] none) "Catering" 5).1).1 =
        [Service.mk "Catering" 10 0] ∧
    (listServices
        (app_contribute (AppState.mk [Service.mk "Catering" 10 0] none) "Catering" 5).1).1 ≠
      sort_values_servicio
        (app_contribute (AppState.mk [Service.mk "Catering" 10 0] none) "Catering" 5).1.store := by
  decide

/-- C3 (amended): a listing call triggers a fresh fetch only when no
snapshot is cached (first call, expiry, or an explicit clear); in that
case the returned snapshot is the sheet itself sorted by service name,
so it reflects every write committed strictly before the call, and the
fetched sheet is cached. -/
theorem listServices_fresh_fetch_when_uncached (st : AppState) (h : st.cache = none) :
    listServices st =
      (sort_values_servicio st.store, AppState.mk st.store (some st.store)) := by
  obtain ⟨store, cache⟩ := st
  cases cache with
  | none => rfl
  | some df => exact Option.noConfusion h

/-- Witness for the amended C3: with an empty cache the listing returns
the sheet itself (sorted) and caches it. -/
theorem listServices_fresh_fetch_when_uncached_witness :
    listServices (AppState.mk [Service.mk "Catering" 500 480] none) =
      (sort_values_servicio [Service.mk "Catering" 500 480],
        AppState.mk [Service.mk "Catering" 500 480]
          (some [Service.mk "Catering" 500 480])) :=
  listServices_fresh_fetch_when_uncached
    (AppState.mk [Service.mk "Catering" 500 480] none) rfl

/-- C8: Funded is not terminal in the code.  Continuing the sequential
run of the stale-cache trace: after contributing 5 and then 10 from a
clean start, the sheet holds Catering at 15 of 10 (funded, contributed
>= target), while the cache shows 5 of 10.  The next run therefore
still renders the input widget (displayed 5 < 10, widget maximum 5),
and contributing 5 passes the capacity check 5 + 5 <= 10 and commits
the freshly fetched 15 + 5 = 20: a contribution against a funded
service succeeds and increases its contributed amount further, instead
of always failing with the capacity error. -/
theorem funded_not_terminal :
    aportado_at (app_contribute
        (app_contribute (AppState.mk [Service.mk "Catering" 10 0] none) "Catering" 5).1
        "Catering" 10).1.store 0 ≥ 10 ∧
    (get_google_sheet_data (app_contribute
        (app_contribute (AppState.mk [Service.mk "Catering" 10 0] none) "Catering" 5).1
        "Catering" 10).1).1 = [Service.mk "Catering" 10 5] ∧
    (app_contribute (app_contribute
        (app_contribute (AppState.mk [Service.mk "Catering" 10 0] none) "Catering" 5).1
        "Catering" 10).1 "Catering" 5).2 = ContributeResult.success 5 ∧
    aportado_at (app_contribute (app_contribute
        (app_contribute (AppState.mk [Service.mk "Catering" 10 0] none) "Catering" 5).1
        "Catering" 10).1 "Catering" 5).1.store 0 = 20 := by
  decide
